import Mathlib

/-!
Shallow embedding of `src/main.py` (aternos-watcher): the status classifier
`get_server_status`, the MOTD formatting-code translator `mc_to_ansi`, and the
debounced watch loop of `main`.  Network interactions (the mcstatus query and
the Discord webhook) are external collaborators: a query outcome is an input
(`Option JavaStatusResponse`, `none` for any raised exception), and dispatched
notifications are collected in an output list instead of being sent.
-/

/-- The `ServerState` enum of `main.py` (lines 47-52). -/
inductive ServerState where
  | OFFLINE
  | STARTING
  | WAITING
  | ONLINE
  | STOPPING
deriving DecidableEq, Repr

/-- The `players` field of a mcstatus `JavaStatusResponse`: online and max counts. -/
structure Players where
  online : Int
  max : Int
deriving DecidableEq, Repr

/-- The parts of a mcstatus `JavaStatusResponse` that `main.py` reads: the
description (MOTD) as text, and the player counts. -/
structure JavaStatusResponse where
  description : List Char
  players : Players
deriving DecidableEq, Repr

/-- Python's substring test `needle in hay`, on lists of characters. -/
def hasSub (needle : List Char) : List Char → Bool
  | [] => needle.isEmpty
  | c :: rest => needle.isPrefixOf (c :: rest) || hasSub needle rest

/-- Embedding of `get_server_status` (`main.py` lines 110-149).  The outcome of
the network query is the argument: `none` when `JavaServer.lookup`/`status`
raised (timeout, refused connection, resolution failure, malformed response),
`some status` on success.  The body mirrors the Aternos filtering logic. -/
def get_server_status (q : Option JavaStatusResponse) :
    ServerState × Option JavaStatusResponse :=
  match q with
  | none => (ServerState.OFFLINE, none)
  | some status =>
    let motd := status.description.map Char.toLower
    if hasSub "offline".data motd then
      (ServerState.OFFLINE, some status)
    else if hasSub "starting".data motd || hasSub "preparing".data motd then
      (ServerState.STARTING, some status)
    else if hasSub "stopping".data motd then
      (ServerState.STOPPING, some status)
    else if hasSub "connect to".data motd then
      (ServerState.WAITING, some status)
    else if status.players.max = 0 then
      (ServerState.OFFLINE, some status)
    else
      (ServerState.ONLINE, some status)

/-- One iteration of the `while True` loop in `main` (`main.py` lines 224-249).
`q1` is the query outcome of the tick's first classification, `q2` the outcome
of the confirmation re-classification (used only when the debounce branch
re-queries).  Returns the new `last_state` and the list of
`send_discord_notification` calls attempted on the tick (state argument and raw
status argument of each call). -/
def tick (last : ServerState) (q1 q2 : Option JavaStatusResponse) :
    ServerState × List (ServerState × Option JavaStatusResponse) :=
  let res := get_server_status q1
  let current := res.1
  if current ≠ last then
    if current = ServerState.ONLINE ∨ current = ServerState.WAITING then
      let cres := get_server_status q2
      if cres.1 = current then
        (current, [(current, cres.2)])
      else
        (cres.1, [])
    else if current = ServerState.OFFLINE then
      (ServerState.OFFLINE, [(ServerState.OFFLINE, res.2)])
    else
      (current, [])
  else
    (last, [])

/-- A run of the watch loop over a list of ticks, each tick carrying its two
possible query outcomes; threads `last_state` and accumulates all attempted
notification dispatches. -/
def runTicks (last : ServerState) :
    List (Option JavaStatusResponse × Option JavaStatusResponse) →
    ServerState × List (ServerState × Option JavaStatusResponse)
  | [] => (last, [])
  | t :: ts =>
    let step := tick last t.1 t.2
    let rest := runTicks step.1 ts
    (rest.1, step.2 ++ rest.2)

/-- The `codes` dictionary lookup of `mc_to_ansi` (`main.py` lines 70-93):
the ANSI replacement for a recognized (already lowercased) formatting code,
`none` for an unrecognized character. -/
def ansiCode : Char → Option (List Char)
  | '0' => some "\x1b[30m".data
  | '1' => some "\x1b[34m".data
  | '2' => some "\x1b[32m".data
  | '3' => some "\x1b[36m".data
  | '4' => some "\x1b[31m".data
  | '5' => some "\x1b[35m".data
  | '6' => some "\x1b[33m".data
  | '7' => some "\x1b[37m".data
  | '8' => some "\x1b[30;1m".data
  | '9' => some "\x1b[34;1m".data
  | 'a' => some "\x1b[32;1m".data
  | 'b' => some "\x1b[36;1m".data
  | 'c' => some "\x1b[31;1m".data
  | 'd' => some "\x1b[35;1m".data
  | 'e' => some "\x1b[33;1m".data
  | 'f' => some "\x1b[37;1m".data
  | 'k' => some "".data
  | 'l' => some "\x1b[1m".data
  | 'm' => some "".data
  | 'n' => some "\x1b[4m".data
  | 'o' => some "".data
  | 'r' => some "\x1b[0m".data
  | _ => none

/-- The scanning loop of `mc_to_ansi` (`main.py` lines 95-105): at a section
marker followed by a character whose lowercase form is a recognized code, emit
the ANSI code and skip both characters; otherwise copy one character. -/
def mcLoop : List Char → List Char
  | [] => []
  | [c] => [c]
  | a :: b :: rest =>
    if a = '§' then
      match ansiCode b.toLower with
      | some esc => esc ++ mcLoop rest
      | none => a :: mcLoop (b :: rest)
    else
      a :: mcLoop (b :: rest)

/-- Embedding of `mc_to_ansi` (`main.py` lines 65-107): run the scanning loop
and append a final reset escape. -/
def mc_to_ansi (text : List Char) : List Char :=
  mcLoop text ++ "\x1b[0m".data

/-- A concrete successful response that classifies as `ONLINE`: an ordinary MOTD
with a positive max-player capacity. -/
def respOnline : JavaStatusResponse := ⟨"A Minecraft Server".data, ⟨3, 20⟩⟩

/-- A concrete successful response that classifies as `STARTING`: the Aternos
proxy's "starting" MOTD. -/
def respStarting : JavaStatusResponse := ⟨"Server is starting...".data, ⟨0, 0⟩⟩

/-- A concrete successful response whose MOTD contains both "offline" and
"connect to", in mixed case. -/
def respOfflineConnect : JavaStatusResponse :=
  ⟨"Server OffLine - Connect To example.org".data, ⟨0, 0⟩⟩

/-- A concrete successful response with an uninformative MOTD and a declared
max-player capacity of zero. -/
def respPlain : JavaStatusResponse := ⟨"hello world".data, ⟨0, 0⟩⟩

/-- A tick whose first classification already equals `last_state` takes the
no-action branch: state unchanged, nothing dispatched. -/
theorem tick_of_eq (last : ServerState) (q1 q2 : Option JavaStatusResponse)
    (h : (get_server_status q1).1 = last) : tick last q1 q2 = (last, []) := by
  simp [tick, h]

/-- The recognized formatting-code characters: the keys of the `codes`
dictionary of `mc_to_ansi`. -/
def recognizedCodes : List Char := "0123456789abcdefklmnor".data

/-- A character other than the section marker is copied verbatim by the
scanning loop. -/
theorem mcLoop_copy (c : Char) (h : c ≠ '§') (rest : List Char) :
    mcLoop (c :: rest) = c :: mcLoop rest := by
  cases rest with
  | nil => rfl
  | cons b r => simp [mcLoop, h]

/-- C6: the classifier never propagates an exception: a failed query (the
`except` path of `get_server_status`, any of timeout, refused connection,
resolution failure, malformed response, all reaching the handler as a raised
exception and embedded as the absent query outcome) yields the sample
`(OFFLINE, no raw response)`. -/
theorem c6_classifier_failure_offline :
    get_server_status none = (ServerState.OFFLINE, none) := rfl

/-- C4: a successful response whose lowercased MOTD contains both "offline" and
"connect to" classifies as OFFLINE and never as WAITING: the "offline" check
has strict priority. -/
theorem c4_offline_beats_connect_to (r : JavaStatusResponse)
    (h1 : hasSub "offline".data (r.description.map Char.toLower) = true)
    (_h2 : hasSub "connect to".data (r.description.map Char.toLower) = true) :
    get_server_status (some r) = (ServerState.OFFLINE, some r) ∧
      (get_server_status (some r)).1 ≠ ServerState.WAITING := by
  constructor
  · simp [get_server_status, h1]
  · simp [get_server_status, h1]

/-- C4 witness: a concrete mixed-case MOTD containing both keywords. -/
theorem c4_offline_beats_connect_to_witness :
    get_server_status (some respOfflineConnect) =
      (ServerState.OFFLINE, some respOfflineConnect) :=
  (c4_offline_beats_connect_to respOfflineConnect (by decide) (by decide)).1

/-- C5: a successful response whose lowercased MOTD contains none of the
recognized keywords and whose declared max-player capacity is exactly 0
classifies as OFFLINE. -/
theorem c5_zero_capacity_offline (r : JavaStatusResponse)
    (h1 : hasSub "offline".data (r.description.map Char.toLower) = false)
    (h2 : hasSub "starting".data (r.description.map Char.toLower) = false)
    (h3 : hasSub "preparing".data (r.description.map Char.toLower) = false)
    (h4 : hasSub "stopping".data (r.description.map Char.toLower) = false)
    (h5 : hasSub "connect to".data (r.description.map Char.toLower) = false)
    (h6 : r.players.max = 0) :
    get_server_status (some r) = (ServerState.OFFLINE, some r) := by
  simp [get_server_status, h1, h2, h3, h4, h5, h6]

/-- C5 witness: an uninformative MOTD with zero capacity. -/
theorem c5_zero_capacity_offline_witness :
    get_server_status (some respPlain) = (ServerState.OFFLINE, some respPlain) :=
  c5_zero_capacity_offline respPlain (by decide) (by decide) (by decide)
    (by decide) (by decide) (by decide)

/-- C3: a tick classifying OFFLINE, differing from `last_state`, dispatches an
OFFLINE notification immediately (no re-classification: the confirmation query
outcome `q2` is arbitrary and unused) and sets `last_state` to OFFLINE. -/
theorem c3_offline_immediate (last : ServerState) (q1 q2 : Option JavaStatusResponse)
    (h1 : (get_server_status q1).1 = ServerState.OFFLINE)
    (h2 : last ≠ ServerState.OFFLINE) :
    tick last q1 q2 =
      (ServerState.OFFLINE, [(ServerState.OFFLINE, (get_server_status q1).2)]) := by
  simp [tick, h1, Ne.symm h2]

/-- C3 witness: from ONLINE, a failed query dispatches OFFLINE at once. -/
theorem c3_offline_immediate_witness :
    tick ServerState.ONLINE none none =
      (ServerState.OFFLINE, [(ServerState.OFFLINE, none)]) :=
  c3_offline_immediate ServerState.ONLINE none none (by decide) (by decide)

/-- C7: a tick classifying STARTING or STOPPING, differing from `last_state`,
dispatches nothing and advances `last_state` to the transitional value; a
repeated identical sample on the following tick then takes the no-action
branch. -/
theorem c7_transitional_silent (last : ServerState)
    (q1 q2 q2b : Option JavaStatusResponse)
    (h1 : (get_server_status q1).1 = ServerState.STARTING ∨
          (get_server_status q1).1 = ServerState.STOPPING)
    (h2 : (get_server_status q1).1 ≠ last) :
    tick last q1 q2 = ((get_server_status q1).1, []) ∧
      tick (get_server_status q1).1 q1 q2b = ((get_server_status q1).1, []) := by
  refine ⟨?_, tick_of_eq _ _ _ rfl⟩
  rcases h1 with h | h <;> rw [h] at h2 <;> simp [tick, h, h2]

/-- C7 witness: a STARTING sample from OFFLINE is silent and sticky. -/
theorem c7_transitional_silent_witness :
    tick ServerState.OFFLINE (some respStarting) none = (ServerState.STARTING, []) :=
  (c7_transitional_silent ServerState.OFFLINE (some respStarting) none none
    (by decide) (by decide)).1

/-- C8: over any run of ticks in which every first classification equals the
current `last_state`, the state is never mutated and nothing is dispatched. -/
theorem c8_idempotent_run (last : ServerState)
    (qs : List (Option JavaStatusResponse × Option JavaStatusResponse))
    (h : ∀ p ∈ qs, (get_server_status p.1).1 = last) :
    runTicks last qs = (last, []) := by
  induction qs with
  | nil => rfl
  | cons t ts ih =>
    have ht : tick last t.1 t.2 = (last, []) :=
      tick_of_eq last t.1 t.2 (h t (List.mem_cons_self t ts))
    simp [runTicks, ht, ih fun p hp => h p (List.mem_cons_of_mem t hp)]

/-- C8 witness: two consecutive failed queries from OFFLINE do nothing. -/
theorem c8_idempotent_run_witness :
    runTicks ServerState.OFFLINE [(none, none), (none, none)] =
      (ServerState.OFFLINE, []) :=
  c8_idempotent_run ServerState.OFFLINE [(none, none), (none, none)] (by decide)

/-- C1 counterexample: from `last_state = OFFLINE`, a STARTING sample mutates
`last_state` (to STARTING) while attempting no dispatch, so "dispatch attempted
iff `last_state` mutated" fails on this tick. -/
theorem c1_counterexample :
    ¬ (((tick ServerState.OFFLINE (some respStarting) none).2 ≠ []) ↔
       ((tick ServerState.OFFLINE (some respStarting) none).1 ≠ ServerState.OFFLINE)) := by
  decide

/-- C1 amended: on every tick, a notification dispatch attempt implies that
`last_state` is mutated; the converse fails (silent transitional states and
flicker adoption mutate `last_state` without dispatching). -/
theorem c1_dispatch_implies_mutation (last : ServerState)
    (q1 q2 : Option JavaStatusResponse)
    (h : (tick last q1 q2).2 ≠ []) : (tick last q1 q2).1 ≠ last := by
  by_cases hc : (get_server_status q1).1 = last
  · rw [tick_of_eq last q1 q2 hc] at h
    exact absurd rfl h
  · simp only [tick] at h ⊢
    split_ifs at h ⊢ with h1 h2 h3 <;> simp_all

/-- C1 witness: from STARTING, a failed query dispatches and mutates. -/
theorem c1_dispatch_implies_mutation_witness :
    (tick ServerState.STARTING none none).1 ≠ ServerState.STARTING :=
  c1_dispatch_implies_mutation ServerState.STARTING none none (by decide)

/-- C2 counterexample: from prior confirmed state WAITING, an ONLINE sample
re-classified as OFFLINE dispatches nothing but sets `last_state` to OFFLINE,
so it is not left unchanged from its pre-transition value. -/
theorem c2_counterexample :
    ¬ ((tick ServerState.WAITING (some respOnline) none).2 = [] ∧
       (tick ServerState.WAITING (some respOnline) none).1 = ServerState.WAITING) := by
  decide

/-- C2 amended: a transient ONLINE sample whose confirmation re-classification
is OFFLINE dispatches nothing, and `last_state` is set to the re-classified
OFFLINE value — equal to its pre-transition value exactly when that value was
OFFLINE. -/
theorem c2_debounce_flicker (last : ServerState) (q1 q2 : Option JavaStatusResponse)
    (h1 : (get_server_status q1).1 = ServerState.ONLINE)
    (h2 : last ≠ ServerState.ONLINE)
    (h3 : (get_server_status q2).1 = ServerState.OFFLINE) :
    tick last q1 q2 = (ServerState.OFFLINE, []) := by
  simp [tick, h1, h3, Ne.symm h2]

/-- C2 witness: from OFFLINE, an ONLINE flicker re-sampled as OFFLINE is
suppressed and the state stays OFFLINE. -/
theorem c2_debounce_flicker_witness :
    tick ServerState.OFFLINE (some respOnline) none = (ServerState.OFFLINE, []) :=
  c2_debounce_flicker ServerState.OFFLINE (some respOnline) none
    (by decide) (by decide) (by decide)

/-- C9: the formatting-code translation passes a section marker followed by an
unrecognized character through literally, maps codes 0-9 and a-f to their
foreground-color escapes, elides k, m and o, maps l to bold, n to underline
and r to reset, and always appends a reset escape so the output ends with a
reset code. -/
theorem c9_format_code_translation :
    (∀ rest : List Char,
      (∀ c : Char, ansiCode c.toLower = none → c ≠ '§' →
        mcLoop ('§' :: c :: rest) = '§' :: c :: mcLoop rest) ∧
      mcLoop ('§' :: '0' :: rest) = "\x1b[30m".data ++ mcLoop rest ∧
      mcLoop ('§' :: '1' :: rest) = "\x1b[34m".data ++ mcLoop rest ∧
      mcLoop ('§' :: '2' :: rest) = "\x1b[32m".data ++ mcLoop rest ∧
      mcLoop ('§' :: '3' :: rest) = "\x1b[36m".data ++ mcLoop rest ∧
      mcLoop ('§' :: '4' :: rest) = "\x1b[31m".data ++ mcLoop rest ∧
      mcLoop ('§' :: '5' :: rest) = "\x1b[35m".data ++ mcLoop rest ∧
      mcLoop ('§' :: '6' :: rest) = "\x1b[33m".data ++ mcLoop rest ∧
      mcLoop ('§' :: '7' :: rest) = "\x1b[37m".data ++ mcLoop rest ∧
      mcLoop ('§' :: '8' :: rest) = "\x1b[30;1m".data ++ mcLoop rest ∧
      mcLoop ('§' :: '9' :: rest) = "\x1b[34;1m".data ++ mcLoop rest ∧
      mcLoop ('§' :: 'a' :: rest) = "\x1b[32;1m".data ++ mcLoop rest ∧
      mcLoop ('§' :: 'b' :: rest) = "\x1b[36;1m".data ++ mcLoop rest ∧
      mcLoop ('§' :: 'c' :: rest) = "\x1b[31;1m".data ++ mcLoop rest ∧
      mcLoop ('§' :: 'd' :: rest) = "\x1b[35;1m".data ++ mcLoop rest ∧
      mcLoop ('§' :: 'e' :: rest) = "\x1b[33;1m".data ++ mcLoop rest ∧
      mcLoop ('§' :: 'f' :: rest) = "\x1b[37;1m".data ++ mcLoop rest ∧
      mcLoop ('§' :: 'k' :: rest) = mcLoop rest ∧
      mcLoop ('§' :: 'm' :: rest) = mcLoop rest ∧
      mcLoop ('§' :: 'o' :: rest) = mcLoop rest ∧
      mcLoop ('§' :: 'l' :: rest) = "\x1b[1m".data ++ mcLoop rest ∧
      mcLoop ('§' :: 'n' :: rest) = "\x1b[4m".data ++ mcLoop rest ∧
      mcLoop ('§' :: 'r' :: rest) = "\x1b[0m".data ++ mcLoop rest) ∧
    (∀ text : List Char, "\x1b[0m".data <:+ mc_to_ansi text) := by
  refine ⟨fun rest => ⟨fun c h hne => ?_, rfl, rfl, rfl, rfl, rfl, rfl, rfl, rfl,
    rfl, rfl, rfl, rfl, rfl, rfl, rfl, rfl, rfl, rfl, rfl, rfl, rfl, rfl⟩,
    fun text => List.suffix_append _ _⟩
  have h1 : mcLoop ('§' :: c :: rest) = '§' :: mcLoop (c :: rest) := by
    simp [mcLoop, h]
  rw [h1, mcLoop_copy c hne]

/-- C9 witness: an unrecognized code character after the marker passes through
literally. -/
theorem c9_format_code_translation_witness :
    mcLoop ('§' :: 'z' :: []) = '§' :: 'z' :: mcLoop [] :=
  (c9_format_code_translation.1 []).1 'z' (by decide) (by decide)

/-- C10: the character after a section marker is matched case-insensitively:
replacing a recognized code letter by its uppercase form yields identical
output. -/
theorem c10_code_case_insensitive (c : Char) (hc : c ∈ recognizedCodes)
    (rest : List Char) :
    mcLoop ('§' :: c.toUpper :: rest) = mcLoop ('§' :: c :: rest) := by
  simp only [recognizedCodes, String.data] at hc
  fin_cases hc <;> rfl

/-- C10 witness: the uppercase green code behaves like the lowercase one. -/
theorem c10_code_case_insensitive_witness :
    mcLoop ('§' :: 'A' :: []) = mcLoop ('§' :: 'a' :: []) :=
  c10_code_case_insensitive 'a' (by decide) []
